import Mathlib

/-!
Verification of `create_thesis_docx.py`, a linear python-docx script that
builds a bachelor-thesis document in memory and saves it to a fixed path.
The data model (Document, Block, Run, Section) and the operations
(`appendBlock`, the styling helpers, the table construction, the heading
loops) are embedded below as executable Lean definitions translated from
the source; the serializer and the finalize guard, which live in library
code respectively only in the design contract, are modelled from the spec
where noted.
-/

namespace ThesisDocx

/-- Paragraph alignment, mirroring `WD_ALIGN_PARAGRAPH` values used by the
script (LEFT and CENTER are the only ones that occur). -/
inductive Alignment where
  | left
  | center
  | justify
  deriving DecidableEq, Repr

/-- Length constructor Pt(x) of python-docx: points stored in EMU
(1 pt = 12700 EMU). -/
def Pt (x : Nat) : Nat := x * 12700

/-- Length constructor Inches(x) for the whole-inch case: 1 inch = 914400 EMU. -/
def Inches (x : Nat) : Nat := x * 914400

/-- The value Inches(1.25) from the margin setup, in EMU. -/
def inches_1_25 : Nat := 1143000

/-- Paragraph format state touched by `set_paragraph_spacing` and
`add_heading_with_styling`: `space_before`, `space_after` (EMU),
`line_spacing` (multiple), `alignment`. `none` = library default. -/
structure ParagraphFormat where
  space_before : Option Nat
  space_after : Option Nat
  line_spacing : Option ℚ
  alignment : Option Alignment
  deriving DecidableEq, Repr

/-- The untouched paragraph format of a freshly added paragraph. -/
def ParagraphFormat.default : ParagraphFormat :=
  { space_before := none, space_after := none,
    line_spacing := none, alignment := none }

/-- A run: a styled span of text inside a paragraph
(`bold`, `italic`, `font.size`, `font.color.rgb`). -/
structure Run where
  text : String
  bold : Option Bool
  italic : Option Bool
  size : Option Nat
  color : Option (Nat × Nat × Nat)
  deriving DecidableEq, Repr

/-- A plain run carrying only text, as created by `add_paragraph(text)`. -/
def Run.plain (t : String) : Run :=
  { text := t, bold := none, italic := none, size := none, color := none }

/-- A paragraph: style name, runs, and its paragraph format. -/
structure Paragraph where
  style : String
  runs : List Run
  fmt : ParagraphFormat
  deriving DecidableEq, Repr

/-- Content blocks of the document body, in the variants the script
produces: headings, paragraphs (lists are paragraphs with a list style),
tables and page breaks. -/
inductive Block where
  | heading (text : String) (level : Nat) (fmt : ParagraphFormat)
  | paragraph (p : Paragraph)
  | table (rows cols : Nat) (style : String) (cells : List (List String))
  | pageBreak
  deriving DecidableEq, Repr

/-- Page-layout section: the four margins set at lines 44-50 of the
script, in EMU. -/
structure Sect where
  top_margin : Nat
  bottom_margin : Nat
  left_margin : Nat
  right_margin : Nat
  deriving DecidableEq, Repr

/-- The in-memory document: ordered block sequence plus its sections. -/
structure Document where
  sections : List Sect
  blocks : List Block
  deriving DecidableEq, Repr

/-- A fresh python-docx document, Document(), with one default section
(python-docx default template margins are 1 inch on every side) and an
empty body. -/
def Document.new : Document :=
  { sections := [{ top_margin := Inches 1, bottom_margin := Inches 1,
                   left_margin := Inches 1, right_margin := Inches 1 }],
    blocks := [] }

/-- Appending one block to the document body; every `doc.add_*` call of
python-docx appends its new block at the end of the body sequence. -/
def appendBlock (d : Document) (b : Block) : Document :=
  { d with blocks := d.blocks ++ [b] }

/-- A sequence of `appendBlock` calls, in call order. -/
def appendAll (d : Document) (bs : List Block) : Document :=
  bs.foldl appendBlock d

/-- The margin setup loop (lines 44-50): every section of the document
receives top/bottom margins of `Inches 1` and left/right margins of
`Inches(1.25)`. -/
def setMargins (d : Document) : Document :=
  { d with sections := d.sections.map (fun _ =>
      { top_margin := Inches 1, bottom_margin := Inches 1,
        left_margin := inches_1_25, right_margin := inches_1_25 }) }

/-- Helper `set_paragraph_spacing(paragraph, space_before=0, space_after=12)`
(lines 11-16): sets `space_before`/`space_after` to the given point values and
`line_spacing` to 1.5.  The Python defaults 0 and 12 are passed explicitly at
every translated call site. -/
def set_paragraph_spacing (p : Paragraph) (space_before space_after : Nat) :
    Paragraph :=
  { p with fmt := { p.fmt with
      space_before := some (Pt space_before),
      space_after := some (Pt space_after),
      line_spacing := some ((3 : ℚ) / 2) } }

/-- The paragraph created by `doc.add_paragraph(text, style)`: one plain run
holding `text` (python-docx adds no run for empty text) and the untouched
default format. -/
def mkParagraph (text style : String) : Paragraph :=
  { style := style,
    runs := if text = "" then [] else [Run.plain text],
    fmt := ParagraphFormat.default }

/-- Block produced by a bare `doc.add_paragraph(text, style)` call. -/
def mkPara (text style : String) : Block :=
  Block.paragraph (mkParagraph text style)

/-- Block produced by a bare `doc.add_heading(text, level=level)` call. -/
def mkHeading (text : String) (level : Nat) : Block :=
  Block.heading text level ParagraphFormat.default

/-- Setting `paragraph.alignment = a`, python-docx shorthand for
`paragraph_format.alignment`. -/
def withAlignment (p : Paragraph) (a : Alignment) : Paragraph :=
  { p with fmt := { p.fmt with alignment := some a } }

/-- Paragraph shape of the problems loop (lines 177-181): an empty paragraph
given a bold lead run and a plain description run via `add_run`. -/
def boldLeadRunPara (lead description : String) : Paragraph :=
  { style := "Normal",
    runs := [{ text := lead, bold := some true, italic := none,
               size := none, color := none },
             Run.plain description],
    fmt := ParagraphFormat.default }

/-- The paragraph format produced by `add_heading_with_styling` (lines 18-27):
level-1 headings get 12pt spacing before and after and LEFT alignment, other
levels are left at the library default. -/
def heading_fmt (level : Nat) : ParagraphFormat :=
  if level = 1 then
    { ParagraphFormat.default with
        space_before := some (Pt 12), space_after := some (Pt 12),
        alignment := some Alignment.left }
  else ParagraphFormat.default

/-- Helper `add_heading_with_styling(doc, text, level)` (lines 18-27): appends
a heading whose style is the one `add_heading` already gave it and, for level
1, adjusts spacing and alignment of the appended heading. -/
def add_heading_with_styling (d : Document) (text : String) (level : Nat) :
    Document :=
  appendBlock d (Block.heading text level (heading_fmt level))

/-- The per-run mutation of `add_styled_paragraph`: set `run.bold` /
`run.italic` to True for each requested flag. -/
def applyRunFlags (bold italic : Bool) (r : Run) : Run :=
  { r with bold := if bold then some true else r.bold,
           italic := if italic then some true else r.italic }

/-- Helper `add_styled_paragraph(doc, text, style='Normal', bold=False,
italic=False)` (lines 29-39): adds a paragraph, sets the flags on its runs
when requested, and applies `set_paragraph_spacing` with the defaults. -/
def add_styled_paragraph (d : Document) (text style : String)
    (bold italic : Bool) : Document :=
  let p := mkParagraph text style
  let p := if bold || italic then
      { p with runs := p.runs.map (applyRunFlags bold italic) }
    else p
  appendBlock d (Block.paragraph (set_paragraph_spacing p 0 12))

/-- Python string comparison `s <= t` on code points, used by the
`p[0] <= title` filter of the principles loop (line 328). -/
def pyStrLeAux : List Char → List Char → Bool
  | [], _ => true
  | _ :: _, [] => false
  | c :: cs, d :: ds =>
      if c.toNat < d.toNat then true
      else if c.toNat = d.toNat then pyStrLeAux cs ds
      else false

/-- Python `s <= t` on strings. -/
def pyStrLe (s t : String) : Bool := pyStrLeAux s.data t.data

/-- Cell grid of `doc.add_table(rows=r, cols=c)`: python-docx creates every
declared cell up front holding the empty string. -/
def mkTableCells (r c : Nat) : List (List String) :=
  List.replicate r (List.replicate c "")

/-- The assignment `table.rows[i].cells[j].text = v` on the cell grid. -/
def setCell (t : List (List String)) (i j : Nat) (v : String) :
    List (List String) :=
  t.set i ((t.getD i []).set j v)

/-- The inner loop `for j, cell_data in enumerate(row_data)` of the
comparison-table fill (lines 313-316). -/
def fillRow (t : List (List String)) (i : Nat) (row : List String) :
    List (List String) :=
  row.enum.foldl (fun acc q => setCell acc i q.1 q.2) t

def info_text : String :=
  "Author: Developer\nDate: January 26, 2026\nInstitution: [University Name]\nProgram: Computer Science / Software Engineering / Information Systems"

def toc_items : List String :=
  ["1. Abstract",
   "2. Introduction",
   "3. Theoretical Background",
   "4. Technologies and Tools",
   "5. System Requirements and Analysis",
   "6. System Architecture Design",
   "7. Implementation Details",
   "8. Testing and Validation",
   "9. Security Considerations",
   "10. Results and Evaluation",
   "11. Future Improvements",
   "12. Conclusion",
   "13. References",
   "14. Appendices"]

def abstract_text : String :=
  "This thesis presents the design and implementation of a microservice-based system for processing GitHub repository data using the NestJS framework. The system integrates with the GitHub REST API to retrieve and process repository information, manages user authentication through JWT tokens, facilitates email notifications, and implements centralized logging capabilities.\n\nThe architecture follows microservices principles, utilizing Docker for containerization and deployment, PostgreSQL for persistent storage, and Redis for caching and logging infrastructure. The primary contribution of this work is demonstrating how modern backend frameworks like NestJS can be effectively used to build scalable, maintainable microservice architectures that handle complex external API integration, authentication, and inter-service communication.\n\nThis thesis explores architectural decisions, implementation patterns, security considerations, and best practices for building production-ready microservices. The system is composed of four main services: API Gateway for request routing and authentication, GitHub Stack Service for GitHub API integration, Email Service for notification delivery, and Logger Service for centralized log aggregation."

def motivation_items : List String :=
  ["Efficiently processing and storing GitHub repository metadata",
   "Managing user authentication and authorization in a secure manner",
   "Delivering asynchronous notifications to users",
   "Implementing centralized logging across distributed services",
   "Scaling independently based on workload demands"]

def problems : List (String × String) :=
  [("Monolithic Limitations", "Single-deployment architectures make it difficult to scale specific components independently, leading to inefficient resource utilization and potential bottlenecks."),
   ("API Rate Limiting", "GitHub enforces strict rate limits on API requests. Without proper caching and request management strategies, applications quickly exhaust their quota and fail to respond to user requests."),
   ("Authentication Complexity", "Managing authentication across multiple services while maintaining security requires careful design of token generation, validation, and refresh mechanisms."),
   ("Asynchronous Operations", "Sending email notifications, processing large datasets, and logging operations cannot all be performed synchronously without significant performance degradation."),
   ("Data Persistence", "Storing GitHub data while maintaining consistency, handling concurrent updates, and providing efficient queries requires sophisticated database schema design."),
   ("Observability", "In distributed systems, understanding request flows, identifying bottlenecks, and debugging issues becomes exponentially more complex without proper logging and monitoring infrastructure.")]

def objectives : List String :=
  ["Design a Scalable Microservice Architecture: Create a system composed of independent, loosely coupled services that can be developed, deployed, and scaled independently.",
   "Implement GitHub API Integration: Build robust integration with GitHub\x27s REST API, handling authentication, pagination, rate limiting, and error scenarios.",
   "Develop Email Notification System: Implement a reliable email service capable of sending notifications asynchronously without blocking primary application logic.",
   "Establish Centralized Logging: Create a logging infrastructure that aggregates logs from multiple services for analysis and debugging.",
   "Ensure Security: Implement industry-standard security practices including JWT authentication, secure configuration management, and API protection.",
   "Demonstrate Production Readiness: Implement testing, error handling, and deployment configurations suitable for production environments."]

def questions : List String :=
  ["How can microservice architecture improve the scalability and maintainability of backend systems compared to monolithic approaches?",
   "What are the most effective patterns and practices for integrating external APIs (specifically GitHub) within a microservice architecture?",
   "How can NestJS features (dependency injection, modules, guards) be leveraged to build secure, maintainable microservices?",
   "What trade-offs exist between service independence and operational complexity when implementing distributed systems?",
   "How can centralized logging and monitoring be effectively implemented in a microservice environment?"]

def structure_text : String :=
  "This documentation is organized into twelve main sections:\n\n• Theoretical Background (Section 2) establishes foundational concepts in software architecture, microservices principles, and related technologies.\n\n• Technologies and Tools (Section 3) provides an in-depth overview of the specific technologies employed in the implementation.\n\n• System Requirements and Analysis (Section 4) details functional and non-functional requirements, use cases, and constraints.\n\n• System Architecture Design (Section 5) presents the overall system design, including service decomposition and data models.\n\n• Implementation Details (Section 6) describes how each component was implemented, including code examples and design decisions.\n\n• Testing and Validation (Section 7) covers testing strategies employed to ensure system correctness.\n\n• Security Considerations (Section 8) examines security measures implemented throughout the system.\n\n• Results and Evaluation (Section 9) analyzes the system\x27s performance and achievement of objectives.\n\n• Future Improvements (Section 10) identifies potential enhancements and extensions.\n\n• Conclusion (Section 11) summarizes findings and addresses the research questions."

def char_mono : List String :=
  ["Single codebase and deployment unit",
   "Shared database",
   "Tight coupling between components",
   "Unified technology stack"]

def adv_mono : List String :=
  ["Simpler initial development",
   "Easier debugging and testing in early stages",
   "Straightforward deployment process"]

def dis_mono : List String :=
  ["Difficult to scale individual components",
   "Technology lock-in",
   "Higher risk of cascading failures",
   "Slower development cycles for large teams",
   "Complex to modify and maintain"]

def soa_intro : String :=
  "Service-Oriented Architecture (SOA) is an intermediate approach between monolithic and microservices architectures. It breaks down a system into loosely coupled, reusable services that communicate through well-defined interfaces, typically using web services (SOAP, XML-RPC)."

def char_soa : List String :=
  ["Services are independent but may share databases",
   "Services communicate through formal contracts",
   "Emphasis on service reusability",
   "Enterprise Service Bus (ESB) for message routing"]

def microservices_intro : String :=
  "Microservice architecture extends SOA principles further by emphasizing service independence, decentralized data management, and lightweight communication protocols. Each microservice is typically responsible for a single business capability and can be developed, deployed, and scaled independently."

def char_ms : List String :=
  ["Small, focused services",
   "Independent data stores per service",
   "Lightweight communication (HTTP, event-based)",
   "Decentralized development and deployment",
   "Each service deployable independently"]

def adv_ms : List String :=
  ["True scalability - scale only what\x27s needed",
   "Technology flexibility per service",
   "Independent development cycles",
   "Fault isolation",
   "Rapid deployment and iteration",
   "Language and framework diversity"]

def data : List (List String) :=
  [["Deployment", "Single unit", "Multiple services", "Independent services"],
   ["Scalability", "Component level", "Service level", "Fine-grained"],
   ["Technology", "Unified", "Mixed", "Flexible per service"],
   ["Data Management", "Shared DB", "Often shared", "Independent per service"]]

def principles : List (String × String) :=
  [("Service Independence", "Each microservice should be independently deployable and developable. Services have their own codebase, can be deployed without redeploying others, can use different technology stacks, and can be developed by different teams."),
   ("Decentralized Data Management", "Rather than sharing a single database, each microservice manages its own data store. Services own their data schema, database schemas evolve independently, and data consistency is eventual rather than immediate."),
   ("Fault Isolation", "Failure of one service should not cascade to other services. Services communicate asynchronously when possible, circuit breakers prevent cascading failures, timeouts and retries are essential, and service discovery enables automatic recovery."),
   ("Scalability and Resilience", "Microservices architectures enable granular scaling. Services can be scaled independently based on demand, different services may require different infrastructure, horizontal scaling is straightforward, and load balancing distributes requests.")]

def nestjs_info : String :=
  "NestJS is a progressive Node.js framework for building efficient, scalable server-side applications. It uses TypeScript by default and combines elements of OOP (Object Oriented Programming), FP (Functional Programming), and FRP (Functional Reactive Programming).\n\nKey features of NestJS:\n\n• Strong TypeScript Support: Full TypeScript-first design with compile-time type checking\n• Dependency Injection: Powerful built-in IoC container for managing dependencies\n• Module System: Organized structure with module encapsulation and feature-based organization\n• Decorators: Simplify common patterns like routing, validation, and authentication\n• Middleware & Guards: Support for cross-cutting concerns\n• Exception Handling: Built-in exception filters and error handling\n• Database Integration: Seamless integration with TypeORM, Sequelize, Mongoose\n• Microservices Support: Built-in support for microservices patterns and message queues\n• WebSockets: Native support for real-time communication\n• Testing: Excellent support for unit and integration testing"

def typescript_intro : String :=
  "TypeScript is a superset of JavaScript that adds static typing and advanced language features. It provides compile-time type checking, excellent IDE support, and improves code maintainability."

def ts_benefits : List String :=
  ["Static Type Checking: Errors caught at compile-time rather than runtime",
   "Enhanced IDE Support: Accurate autocomplete, jump to definition, refactoring",
   "Self-Documenting Code: Type annotations serve as inline documentation",
   "Better Maintainability: Easier to understand code intent and facilitate team collaboration",
   "Advanced Features: Interfaces, generics, enums, decorators for metadata annotations"]

def db_intro : String :=
  "PostgreSQL is a powerful, open-source relational database system. It provides ACID compliance, complex queries, transactions, and excellent performance for structured data."

def typeorm_features : List String :=
  ["Decorator-based entity definition",
   "Type-safe queries",
   "Automatic migrations",
   "Relation management",
   "Query builder for complex queries"]

def redis_intro : String :=
  "Redis is an in-memory data structure store used for caching, sessions, and message queues. It provides fast access to frequently used data and supports multiple data types (strings, lists, sets, hashes)."

def redis_uses : List String :=
  ["Caching frequently accessed data to reduce database load",
   "Session storage for user authentication",
   "Message queues for asynchronous operations",
   "Logging aggregation from multiple services"]

def docker_intro : String :=
  "Docker enables containerization of applications, providing consistency across development, testing, and production environments. Docker Compose orchestrates multiple containers for local development and deployment."

def docker_benefits : List String :=
  ["Development: Consistent environment across developers",
   "Testing: Reproducible test environment",
   "Deployment: Same containers move from dev to production",
   "Scaling: Easily replicate services",
   "Isolation: Services run in isolated environments"]

def github_info : String :=
  "GitHub provides a comprehensive REST API for programmatic access to repository data. The system uses Personal Access Tokens for authentication, supporting scopes like \x27repo\x27, \x27gist\x27, \x27user\x27 etc.\n\nKey API Features:\n• Repository operations and metadata retrieval\n• Release management and version tracking\n• User and organization information\n• Event streaming and webhooks\n• Search functionality with advanced filters\n• Rate limiting: 5,000 requests/hour per authenticated user"

def email_info : String :=
  "The system supports multiple email providers through Nodemailer:\n• Gmail with App Passwords\n• Custom SMTP servers\n• Third-party services (SendGrid, Mailgun, AWS SES)\n\nEmail delivery is asynchronous to prevent blocking primary application logic."

def user_reqs : List String :=
  ["F1.1: Users must be able to register with username, email, and password",
   "F1.2: Users must be able to login with credentials",
   "F1.3: Users must be able to update their profile information",
   "F1.4: Users must be able to logout and invalidate their session",
   "F1.5: System must support password reset functionality"]

def github_reqs : List String :=
  ["F2.1: System must fetch repository information from GitHub API",
   "F2.2: System must store retrieved repository data in database",
   "F2.3: System must support repository search functionality",
   "F2.4: System must retrieve and display repository releases",
   "F2.5: System must handle GitHub API rate limiting gracefully",
   "F2.6: System must support pagination for large result sets"]

def email_reqs : List String :=
  ["F3.1: System must send email confirmations after user registration",
   "F3.2: System must send email notifications for important events",
   "F3.3: System must support asynchronous email delivery",
   "F3.4: System must log email sending attempts and results",
   "F3.5: System must support email template customization"]

def log_reqs : List String :=
  ["F4.1: System must log all API requests",
   "F4.2: System must log errors and exceptions with stack traces",
   "F4.3: System must aggregate logs from all services",
   "F4.4: System must support different log levels (debug, info, warn, error)",
   "F4.5: System must persist logs for historical analysis"]

def perf_reqs : List String :=
  ["NF1.1: API responses for cached data must complete within 100ms",
   "NF1.2: API responses for fresh data must complete within 2 seconds",
   "NF1.3: Email delivery must complete within 5 seconds from API call",
   "NF1.4: System must handle 100 concurrent users without degradation"]

def scalability_reqs : List String :=
  ["NF2.1: Each service must be independently scalable",
   "NF2.2: System must support horizontal scaling of stateless services",
   "NF2.3: Database connection pooling must prevent resource exhaustion",
   "NF2.4: Cache must support distributed invalidation"]

def sec_reqs : List String :=
  ["NF4.1: All sensitive data must be encrypted in transit (TLS)",
   "NF4.2: All sensitive data must be encrypted at rest",
   "NF4.3: JWT tokens must be signed with strong algorithms",
   "NF4.4: API credentials must never be logged or exposed"]

def roles : List (String × List String) :=
  [("Anonymous User", ["Can browse public information (if available)", "Can register for an account", "Cannot access protected resources"]),
   ("Authenticated User", ["Can access their own data", "Can search for repositories", "Can manage their profile", "Can receive email notifications"]),
   ("System Administrator", ["Can monitor system health", "Can view logs from all services", "Can manage user accounts", "Can configure system parameters"])]

def constraints : List String :=
  ["GitHub API: 5,000 requests per hour for authenticated users, rate limiting enforcement",
   "Email Provider: Rate limits and bounce handling required",
   "Database: PostgreSQL version 12 or higher",
   "Node.js: Version 16 or higher",
   "Docker: Version 20.10 or higher",
   "Internet: Persistent connection required for external APIs"]

def arch_intro : String :=
  "The system follows a microservice-based architecture with the following main components:\n\n1. API Gateway: Single entry point for all client requests, handles authentication, routing, and aggregation\n2. GitHub Stack Service: Core service for GitHub API integration and repository management\n3. Email Service: Handles asynchronous email delivery\n4. Logger Service: Centralized log aggregation and analysis\n5. PostgreSQL Database: Persistent storage for users, repositories, and metadata\n6. Redis: In-memory cache and message queue for inter-service communication"

def gateway_resp : List String :=
  ["Request routing to appropriate services",
   "Authentication enforcement (JWT validation)",
   "Request validation and sanitization",
   "Response aggregation",
   "Rate limiting and throttling",
   "Load balancing across service instances"]

def github_stack_resp : List String :=
  ["GitHub REST API integration",
   "Repository data retrieval and caching",
   "Release management",
   "Rate limit handling",
   "Data transformation and validation",
   "Background job scheduling for syncing"]

def email_resp : List String :=
  ["Asynchronous email queue processing",
   "SMTP configuration management",
   "Email template rendering",
   "Delivery tracking and logging",
   "Retry logic for failed deliveries"]

def logger_resp : List String :=
  ["Centralized log aggregation",
   "Log persistence and storage",
   "Log search and filtering",
   "Metrics and analytics",
   "Alert generation for critical events"]

def db_design : String :=
  "The system uses PostgreSQL with TypeORM for data persistence. Key entities include:\n\n• User: Stores user accounts with authentication credentials\n• Repository: Caches GitHub repository information\n• Release: Tracks GitHub releases and versions\n• AuthToken: Manages JWT tokens and refresh tokens\n\nAll entities include timestamps for audit trails and support relationships for data integrity."

def comm_intro : String :=
  "Services communicate using REST APIs with HTTP. For asynchronous operations, Redis message queues are used to decouple services:\n\n1. Synchronous: Gateway calls GitHub Stack Service for API requests\n2. Asynchronous: Email Service consumes messages from Redis queue\n3. Logging: All services push logs to Redis and Logger Service\n\nThis design ensures services remain loosely coupled and can fail independently."

def structure_intro : String :=
  "The project follows a monorepo structure using NestJS CLI:\n\nGitHub_Project/\n  ├── apps/\n  │   ├── gateway/          # API Gateway service\n  │   ├── github-stack/     # GitHub integration service\n  │   ├── email/            # Email delivery service\n  │   └── logger/           # Logging aggregation service\n  ├── docker-compose.yaml   # Service orchestration\n  ├── package.json         # Shared dependencies\n  └── tsconfig.json        # TypeScript configuration\n\nEach service is independently deployable with its own Dockerfile."

def tech_data : List (List String) :=
  [["Framework", "NestJS 10+"],
   ["Language", "TypeScript 5+"],
   ["Database", "PostgreSQL 15"],
   ["Cache/Queue", "Redis 7"],
   ["Runtime", "Node.js 18+"],
   ["Containerization", "Docker & Docker Compose"]]

def deps_intro : String :=
  "The project uses several key libraries to support microservices architecture:\n\nCore NestJS Packages:\n• @nestjs/common: Core functionality\n• @nestjs/platform-express: HTTP server\n• @nestjs/typeorm: Database ORM integration\n• @nestjs/jwt: JWT authentication\n• @nestjs/config: Configuration management\n• @nestjs/schedule: Task scheduling\n• @nestjs/axios: HTTP client for external APIs\n\nData and Persistence:\n• typeorm: Object-relational mapping\n• pg: PostgreSQL driver\n• ioredis: Redis client\n\nAuthentication:\n• passport: Authentication middleware\n• passport-jwt: JWT strategy\n• bcrypt: Password hashing\n\nUtilities:\n• class-validator: Data validation\n• class-transformer: DTO transformation\n• nodemailer: Email sending\n• axios: HTTP requests"

def security_impl : String :=
  "Security is implemented at multiple layers:\n\n1. Authentication: JWT-based authentication with access and refresh tokens\n2. Authorization: Role-based access control (RBAC) on protected endpoints\n3. Input Validation: Class-validator pipes for all DTOs\n4. Password Security: bcrypt hashing with salt rounds\n5. Configuration: Environment variables for sensitive data\n6. CORS: Configured to allow only trusted origins\n7. Rate Limiting: Express rate-limit middleware on API endpoints\n8. Error Handling: Proper exception filters to avoid information leakage"

def testing_info : String :=
  "The project implements a comprehensive testing strategy:\n\nUnit Tests:\n• Test individual services and utilities in isolation\n• Mock external dependencies\n• Use Jest with coverage reports\n\nIntegration Tests:\n• Test service interactions with databases\n• Test API gateway routing\n• Test external API calls with mocks\n\nEnd-to-End (E2E) Tests:\n• Test complete user workflows\n• Test authentication flows\n• Test error scenarios and edge cases\n\nTest Configuration:\n• Jest as test runner\n• ts-jest for TypeScript support\n• @nestjs/testing for NestJS utilities\n• supertest for HTTP testing"

def config_intro : String :=
  "Sensitive configuration is managed through environment variables:\n\nDevelopment (.env file - not committed):\n• Database credentials\n• GitHub access token\n• JWT secrets\n• Email provider credentials\n\nProduction (Environment variables):\n• Set in deployment platform (Docker, Kubernetes, Cloud providers)\n• Never hardcoded in source code\n• Rotated regularly\n• Validated on startup"

def auth_info : String :=
  "JWT-based Authentication:\n\n1. User Registration: Password hashed with bcrypt (10 salt rounds)\n2. User Login: Validates credentials and issues tokens\n3. Access Token: Short-lived (15 minutes) for API requests\n4. Refresh Token: Long-lived (7 days) for obtaining new access tokens\n5. Token Validation: Verified on every protected endpoint\n\nAuthorization:\n• Role-based access control (RBAC)\n• Guards prevent unauthorized access\n• Different endpoints have different permission requirements"

def data_protect : String :=
  "Data is protected through:\n\nIn Transit:\n• TLS/SSL encryption for all HTTP connections\n• HTTPS enforced in production\n• Secure SMTP connections for email\n\nAt Rest:\n• Database encryption supported\n• Sensitive fields encrypted with custom transformers\n• Secure password hashing\n\nAPI Security:\n• Input validation for all requests\n• SQL injection prevention through TypeORM\n• CSRF protection\n• Rate limiting to prevent brute force attacks\n• XSS prevention through proper response handling"

def external_api : String :=
  "GitHub API Integration:\n\n• Personal Access Tokens never logged\n• Rate limit headers monitored\n• Exponential backoff for rate limits\n• Error responses don\x27t leak sensitive data\n• Request validation and sanitization\n\nEmail Service:\n\n• SMTP credentials in environment variables\n• TLS required for email transmission\n• Email validation before sending\n• No credentials in logs\n• Secure headers prevent email injection"

def performance_intro : String :=
  "The implemented system demonstrates solid performance characteristics:\n\nResponse Times:\n• Cached data retrieval: 50-100ms\n• Fresh API calls: 800-1500ms\n• Database operations: 100-300ms\n• Email sending: 2000-5000ms\n\nThroughput:\n• Gateway: 500+ requests/second\n• GitHub Service: 200+ requests/second\n• Email Service: 50+ emails/second\n\nResource Usage:\n• Gateway: 80-120MB memory\n• GitHub Service: 100-150MB memory\n• Database: 200-300MB memory\n• Redis: 50-100MB memory"

def scalability : String :=
  "Horizontal Scaling Capabilities:\n\nSingle Instance Baseline:\n• Throughput: 500 req/sec\n• Response time (p95): 400ms\n• Database CPU: 60-70%\n\nAfter Scaling (3x Gateway, 3x GitHub Service):\n• Throughput: 1500 req/sec (3x improvement)\n• Response time (p95): 200ms (50% improvement)\n• Database CPU: Remains at 20-30% due to caching\n\nScaling Benefits:\n• Independent service scaling\n• Load distributed across instances\n• Better resource utilization\n• Improved fault tolerance\n• Easier maintenance and updates"

def objectives_met : String :=
  "1. Scalable Microservice Architecture: ✓ Achieved\n   • Four independent services that can be deployed separately\n   • Horizontal scaling demonstrated\n\n2. GitHub API Integration: ✓ Achieved\n   • Successfully integrated GitHub REST API\n   • Handles rate limiting and caching\n   • Proper error handling\n\n3. Email Notification System: ✓ Achieved\n   • Asynchronous email delivery\n   • Multiple provider support\n   • Delivery tracking\n\n4. Centralized Logging: ✓ Achieved\n   • Aggregates logs from all services\n   • Redis-based persistence\n   • Search and filtering capabilities\n\n5. Security Implementation: ✓ Achieved\n   • JWT authentication\n   • Secure configuration\n   • Input validation\n   • Password hashing\n\n6. Production Readiness: ✓ Achieved\n   • Comprehensive test coverage\n   • Docker containerization\n   • Error handling\n   • Health checks"

def limitations : String :=
  "Current Limitations:\n\n1. GitHub API Rate Limiting: 5,000 requests/hour per token\n   → Mitigation: Implement caching and request aggregation\n\n2. Single Database Instance: Becomes bottleneck at very high load\n   → Future: Read replicas and database sharding\n\n3. Email Queue Persistence: Redis queue not persistent\n   → Future: Upgrade to RabbitMQ or Kafka\n\n4. Token Revocation: No immediate token blacklist\n   → Future: Implement Redis-based token blacklist\n\n5. Authorization Granularity: Basic RBAC only\n   → Future: Implement fine-grained authorization (ABAC)\n\nFuture Enhancements:\n\n• CI/CD pipeline integration\n• Kubernetes deployment configuration\n• Prometheus metrics collection\n• ELK stack for advanced logging\n• GraphQL API layer\n• WebSocket support for real-time updates\n• Multi-tenant support\n• Advanced caching strategies\n• Service mesh implementation"

def conclusion_text : String :=
  "This thesis has presented a comprehensive design and implementation of a microservice-based system for processing GitHub repository data using NestJS and modern backend technologies. The system successfully demonstrates how to build scalable, maintainable distributed systems that integrate with external APIs, manage authentication securely, and provide reliable asynchronous operations.\n\nKey Achievements:\n\n1. Successfully designed and implemented a microservice architecture that separates concerns across independent services\n2. Developed robust GitHub API integration with proper error handling and rate limit management\n3. Implemented secure JWT-based authentication with refresh token mechanisms\n4. Created asynchronous email notification system\n5. Established centralized logging and monitoring infrastructure\n6. Applied industry-standard security practices throughout the system\n7. Demonstrated scalability through Docker containerization and multi-service deployment\n\nResearch Questions Answered:\n\nQ1: How can microservice architecture improve scalability and maintainability?\n→ The implementation shows that independent services can be scaled separately, developed in parallel, and deployed without affecting other services, significantly improving both scalability and maintainability compared to monolithic approaches.\n\nQ2: What are effective patterns for integrating external APIs?\n→ The GitHub Stack Service demonstrates effective patterns: proper authentication, caching strategies, rate limit handling, error recovery, and data transformation at service boundaries.\n\nQ3: How can NestJS features enable secure microservices?\n→ NestJS\x27s dependency injection, guard system, pipe validation, and modular architecture provide strong foundation for secure, maintainable microservices.\n\nQ4: What trade-offs exist in distributed systems?\n→ The implementation reveals trade-offs between operational complexity vs. scalability benefits, eventual consistency vs. immediate consistency, and development complexity vs. deployment flexibility.\n\nQ5: How to implement centralized logging effectively?\n→ Redis-based logging provides scalable aggregation with fast retrieval, suitable for debugging and analysis.\n\nProduction Readiness:\n\nThe system is production-ready with:\n• Comprehensive test coverage (unit, integration, e2e)\n• Proper error handling and recovery mechanisms\n• Health checks and monitoring capabilities\n• Docker containerization for consistent deployment\n• Environment-based configuration\n• Security best practices implemented\n• Logging and audit trails\n\nThis thesis serves as a practical guide for implementing microservice architectures using NestJS and demonstrates that with proper design patterns, architecture, and engineering practices, microservices can be effectively implemented and maintained."

def official_refs : List String :=
  ["NestJS Documentation: https://docs.nestjs.com/",
   "GitHub REST API v3: https://docs.github.com/en/rest",
   "Docker Documentation: https://docs.docker.com/",
   "PostgreSQL Documentation: https://www.postgresql.org/docs/",
   "Redis Documentation: https://redis.io/documentation",
   "TypeScript Handbook: https://www.typescriptlang.org/docs/",
   "TypeORM Documentation: https://typeorm.io/"]

def books : List String :=
  ["Sam Newman (2021): Building Microservices: Designing Fine-Grained Systems",
   "Martin Fowler (2015): Microservice Architecture",
   "Eric Evans (2003): Domain-Driven Design",
   "Robert C. Martin (2008): Clean Code",
   "Newman, S. (2019): Monolith to Microservices - Evolving Systems One Service at a Time (O\x27Reilly Media)"]

def tools : List String :=
  ["Passport.js: http://www.passportjs.org/",
   "Nodemailer: https://nodemailer.com/",
   "Jest: https://jestjs.io/",
   "Docker Hub: https://hub.docker.com/",
   "npm Registry: https://www.npmjs.com/"]

def config_example : String :=
  "# Environment\nNODE_ENV=development\n\n# Server\nPORT=3000\nGATEWAY_PORT=3000\nGITHUB_SERVICE_PORT=3001\nEMAIL_SERVICE_PORT=3002\nLOGGER_SERVICE_PORT=3003\n\n# Database\nDB_HOST=postgres\nDB_PORT=5432\nDB_USERNAME=postgres\nDB_PASSWORD=postgres\nDB_NAME=github_stack\nDB_SYNCHRONIZE=true\n\n# Redis\nREDIS_HOST=redis\nREDIS_PORT=6379\n\n# GitHub\nGITHUB_TOKEN=ghp_xxxxxxxxxxxxxxxxxxxx\nGITHUB_API_BASE=https://api.github.com\n\n# Email\nEMAIL_PROVIDER=gmail\nEMAIL_USER=your-email@gmail.com\nEMAIL_PASSWORD=app-password\nEMAIL_FROM=noreply@github-stack.com\n\n# JWT\nJWT_SECRET=your-super-secret-key-min-32-chars\nJWT_EXPIRATION=900\nJWT_REFRESH_SECRET=your-refresh-secret\nJWT_REFRESH_EXPIRATION=604800\n\n# Logging\nLOG_LEVEL=info"

def endpoints : List String :=
  ["POST /auth/register - Register new user",
   "POST /auth/login - Login and receive tokens",
   "POST /auth/refresh - Refresh access token",
   "GET /users/profile - Get current user profile",
   "GET /github/repositories/:owner/:repo - Get repository details",
   "GET /github/repositories/search?q=query - Search repositories",
   "GET /github/repositories/:owner/:repo/releases - Get releases",
   "POST /email/send - Send email notification",
   "GET /logs - Retrieve system logs",
   "GET /health - Service health check"]

def docker_commands : String :=
  "# Build all services\ndocker-compose build\n\n# Start all services\ndocker-compose up -d\n\n# View logs\ndocker-compose logs -f\n\n# Stop services\ndocker-compose down\n\n# Run migrations\ndocker-compose exec github-stack npm run typeorm migration:run\n\n# Run tests\ndocker-compose exec github-stack npm test"

def test_commands : String :=
  "# Run all tests\nnpm test\n\n# Run tests with coverage\nnpm run test:cov\n\n# Run specific test file\nnpm test -- auth.service.spec\n\n# Run tests in watch mode\nnpm run test:watch\n\n# Run E2E tests\nnpm run test:e2e"


/-- Splitting a character list at every occurrence of `sep`, keeping empty
groups, as Python str.split with an explicit separator does. -/
def splitOnCharAux (sep : Char) : List Char → List (List Char)
  | [] => [[]]
  | c :: rest =>
      match splitOnCharAux sep rest with
      | [] => if c = sep then [[], []] else [[c]]
      | g :: gs => if c = sep then [] :: g :: gs else (c :: g) :: gs

/-- Python s.split(sep) for a one-character separator. -/
def pySplit (s : String) (sep : Char) : List String :=
  (splitOnCharAux sep s.data).map (fun cs => String.mk cs)

/-- The four author/date lines (lines 80-83): the literal info string split
on newlines, exactly as the source's info_text.split call. -/
def info_lines : List String := pySplit info_text '\n'

/-- The centered title paragraph (lines 56-61): one 16pt bold run colored
RGB(0, 51, 102). -/
def title_paragraph : Block :=
  Block.paragraph
    { style := "Normal",
      runs := [{ text := "Design and Implementation of a Microservice-Based System\nfor GitHub Data Processing Using NestJS",
                 bold := some true, italic := none, size := some (Pt 16),
                 color := some (0, 51, 102) }],
      fmt := { ParagraphFormat.default with alignment := some Alignment.center } }

/-- The centered subtitle paragraph (lines 66-70): one 14pt bold run. -/
def subtitle_paragraph : Block :=
  Block.paragraph
    { style := "Normal",
      runs := [{ text := "Bachelor Thesis Documentation",
                 bold := some true, italic := none, size := some (Pt 14),
                 color := none }],
      fmt := { ParagraphFormat.default with alignment := some Alignment.center } }

/-- The keywords paragraph (lines 131-135): a bold lead run, a plain run of
keywords, then the default spacing. -/
def keywords_paragraph : Block :=
  Block.paragraph (set_paragraph_spacing
    { style := "Normal",
      runs := [{ text := "Keywords: ", bold := some true, italic := none,
                 size := none, color := none },
               Run.plain "Microservices, NestJS, GitHub API, Docker, JWT Authentication, Distributed Systems, REST API, TypeORM, Redis, PostgreSQL"],
      fmt := ParagraphFormat.default } 0 12)

/-- The 5x4 comparison-table fill (lines 297-316): four header cells are set,
then `for i, row_data in enumerate(data, 1)` fills rows 1-4. -/
def comparison_table_cells : List (List String) :=
  let t := mkTableCells 5 4
  let t := setCell t 0 0 "Aspect"
  let t := setCell t 0 1 "Monolithic"
  let t := setCell t 0 2 "SOA"
  let t := setCell t 0 3 "Microservices"
  data.enum.foldl (fun acc q => fillRow acc (q.1 + 1) q.2) t

/-- The comparison table block, style `Light Grid Accent 1`. -/
def comparison_table : Block :=
  Block.table 5 4 "Light Grid Accent 1" comparison_table_cells

/-- The 7x2 technology-stack table fill (lines 708-727): two header cells,
then `for i, row_data in enumerate(tech_data, 1)` sets both cells of rows
1-6, so with the header row all seven declared rows are written. -/
def tech_table_cells : List (List String) :=
  let t := mkTableCells 7 2
  let t := setCell t 0 0 "Component"
  let t := setCell t 0 1 "Technology"
  tech_data.enum.foldl (fun acc q =>
    setCell (setCell acc (q.1 + 1) 0 (q.2.getD 0 "")) (q.1 + 1) 1
      (q.2.getD 1 "")) t

/-- The technology-stack table block, style `Light Grid Accent 1`. -/
def tech_table : Block :=
  Block.table 7 2 "Light Grid Accent 1" tech_table_cells

/-- The subsection number computed at line 328:
len([p for p in principles if p[0] <= title]), with Python's code-point
string comparison. -/
def principleNumber (title : String) : Nat :=
  (principles.filter (fun p => pyStrLe p.1 title)).length

/-- The blocks emitted by the principles loop (lines 327-329): a computed
level-3 heading and a description paragraph per principle. -/
def principlesSegment : List Block :=
  (principles.map (fun pr =>
    [mkHeading ("2.2." ++ toString (principleNumber pr.1) ++ " " ++ pr.1) 3,
     mkPara pr.2 "Normal"])).flatten

/-- The blocks emitted by the roles loop (lines 559-562): a level-4 heading
per role followed by its permission bullets. -/
def rolesSegment : List Block :=
  (roles.map (fun r =>
    mkHeading r.1 4 :: r.2.map (fun perm => mkPara perm "List Bullet"))).flatten

/-- The full ordered sequence of body blocks appended by the script,
in call order (lines 56-1224 of the source). -/
def thesisBlocks : List Block :=
  [title_paragraph,
   mkPara "" "Normal",
   subtitle_paragraph,
   mkPara "" "Normal",
   mkPara "" "Normal",
   mkPara "" "Normal",
   Block.paragraph (withAlignment (mkParagraph "" "Normal") Alignment.center)]
  ++ info_lines.map (fun line => Block.paragraph (set_paragraph_spacing (withAlignment (mkParagraph line "Normal") Alignment.center) 0 0))
  ++ [Block.pageBreak,
   mkHeading "Table of Contents" 1]
  ++ toc_items.map (fun item => Block.paragraph (set_paragraph_spacing (mkParagraph item "List Bullet") 0 6))
  ++ [Block.pageBreak,
   mkHeading "Abstract" 1,
   Block.paragraph (set_paragraph_spacing (mkParagraph abstract_text "Normal") 0 12),
   keywords_paragraph,
   Block.pageBreak,
   mkHeading "1. Introduction" 1,
   mkHeading "1.1 Background and Motivation" 2,
   mkPara "The evolution of software architecture over the past two decades has fundamentally transformed how developers approach building large-scale applications. Traditional monolithic architectures, while suitable for smaller projects, have shown significant limitations when addressing the demands of modern distributed systems, particularly in scenarios involving multiple external integrations and varying scalability requirements." "Normal",
   mkPara "GitHub has become the central platform for collaborative software development, hosting millions of repositories and serving as a critical component in many development workflows. The GitHub platform provides extensive APIs that enable programmatic access to repository data, user information, release management, and event processing. However, leveraging these APIs effectively requires careful handling of rate limits, authentication mechanisms, and data processing workflows." "Normal",
   mkPara "The motivation for this thesis stems from the practical need to build a backend system capable of:" "Normal"]
  ++ motivation_items.map (fun item => mkPara item "List Bullet")
  ++ [mkPara "The choice of NestJS as the primary framework is motivated by its rich ecosystem, built-in support for microservices patterns, strong TypeScript integration, and comprehensive documentation. NestJS provides excellent abstractions for implementing dependency injection, middleware chains, and module organization, making it an ideal choice for enterprise-grade backend systems." "Normal",
   mkHeading "1.2 Problem Statement" 2,
   mkPara "Contemporary backend systems face several interconnected challenges when integrating external APIs like GitHub:" "Normal"]
  ++ problems.map (fun pr => Block.paragraph (boldLeadRunPara (pr.1 ++ ": ") pr.2))
  ++ [mkHeading "1.3 Goals and Objectives" 2,
   mkPara "The primary objectives of this thesis are:" "Normal"]
  ++ objectives.map (fun obj => mkPara obj "List Number")
  ++ [mkHeading "1.4 Research Questions" 2,
   mkPara "This thesis aims to answer the following research questions:" "Normal"]
  ++ questions.map (fun q => mkPara q "List Number")
  ++ [mkHeading "1.5 Thesis Structure Overview" 2,
   mkPara structure_text "Normal",
   Block.pageBreak,
   mkHeading "2. Theoretical Background" 1,
   mkHeading "2.1 Software Architecture Concepts" 2,
   mkHeading "2.1.1 Monolithic Architecture" 3,
   mkPara "A monolithic architecture represents the traditional approach to software design where an entire application is built as a single, unified codebase and deployed as a single unit. All features, business logic, and data access layers are tightly integrated within one application." "Normal",
   mkPara "Characteristics:" "Normal"]
  ++ char_mono.map (fun char => mkPara char "List Bullet")
  ++ [mkPara "Advantages:" "Normal"]
  ++ adv_mono.map (fun adv => mkPara adv "List Bullet")
  ++ [mkPara "Disadvantages:" "Normal"]
  ++ dis_mono.map (fun dis => mkPara dis "List Bullet")
  ++ [mkHeading "2.1.2 Service-Oriented Architecture (SOA)" 3,
   mkPara soa_intro "Normal",
   mkPara "Characteristics:" "Normal"]
  ++ char_soa.map (fun char => mkPara char "List Bullet")
  ++ [mkHeading "2.1.3 Microservice Architecture" 3,
   mkPara microservices_intro "Normal",
   mkPara "Characteristics:" "Normal"]
  ++ char_ms.map (fun char => mkPara char "List Bullet")
  ++ [mkPara "Advantages:" "Normal"]
  ++ adv_ms.map (fun adv => mkPara adv "List Bullet")
  ++ [mkHeading "2.1.4 Comparison and Trade-offs" 3,
   comparison_table,
   mkHeading "2.2 Microservices Principles" 2]
  ++ principlesSegment
  ++ [mkHeading "2.3 Backend Frameworks for Microservices" 2,
   mkHeading "2.3.1 NestJS Framework" 3,
   mkPara nestjs_info "Normal",
   Block.pageBreak,
   mkHeading "3. Technologies and Tools" 1,
   mkHeading "3.1 Programming Language: TypeScript" 2,
   mkPara typescript_intro "Normal",
   mkPara "Key Benefits:" "Normal"]
  ++ ts_benefits.map (fun benefit => mkPara benefit "List Bullet")
  ++ [mkHeading "3.2 Database: PostgreSQL and TypeORM" 2,
   mkPara db_intro "Normal",
   mkPara "TypeORM is an ORM that bridges the gap between object-oriented code and relational databases:" "Normal"]
  ++ typeorm_features.map (fun feature => mkPara feature "List Bullet")
  ++ [mkHeading "3.3 Redis" 2,
   mkPara redis_intro "Normal",
   mkPara "Use Cases in this Project:" "Normal"]
  ++ redis_uses.map (fun use => mkPara use "List Bullet")
  ++ [mkHeading "3.4 Docker and Docker Compose" 2,
   mkPara docker_intro "Normal",
   mkPara "Benefits:" "Normal"]
  ++ docker_benefits.map (fun benefit => mkPara benefit "List Bullet")
  ++ [mkHeading "3.5 External Services" 2,
   mkHeading "3.5.1 GitHub REST API" 3,
   mkPara github_info "Normal",
   mkHeading "3.5.2 Email Services" 3,
   mkPara email_info "Normal",
   Block.pageBreak,
   mkHeading "4. System Requirements and Analysis" 1,
   mkHeading "4.1 Functional Requirements" 2,
   mkHeading "4.1.1 User Management" 3]
  ++ user_reqs.map (fun req => mkPara req "List Bullet")
  ++ [mkHeading "4.1.2 GitHub Integration" 3]
  ++ github_reqs.map (fun req => mkPara req "List Bullet")
  ++ [mkHeading "4.1.3 Email Notifications" 3]
  ++ email_reqs.map (fun req => mkPara req "List Bullet")
  ++ [mkHeading "4.1.4 Logging" 3]
  ++ log_reqs.map (fun req => mkPara req "List Bullet")
  ++ [mkHeading "4.2 Non-Functional Requirements" 2,
   mkHeading "4.2.1 Performance" 3]
  ++ perf_reqs.map (fun req => mkPara req "List Bullet")
  ++ [mkHeading "4.2.2 Scalability" 3]
  ++ scalability_reqs.map (fun req => mkPara req "List Bullet")
  ++ [mkHeading "4.2.3 Security" 3]
  ++ sec_reqs.map (fun req => mkPara req "List Bullet")
  ++ [mkHeading "4.3 User Roles and Use Cases" 2,
   mkHeading "4.3.1 User Roles" 3]
  ++ rolesSegment
  ++ [mkHeading "4.4 System Constraints and Assumptions" 2]
  ++ constraints.map (fun constraint => mkPara constraint "List Bullet")
  ++ [Block.pageBreak,
   mkHeading "5. System Architecture Design" 1,
   mkHeading "5.1 Overall Architecture Overview" 2,
   mkPara arch_intro "Normal",
   mkHeading "5.2 Service Responsibilities" 2,
   mkHeading "5.2.1 API Gateway" 3]
  ++ gateway_resp.map (fun resp => mkPara resp "List Bullet")
  ++ [mkHeading "5.2.2 GitHub Stack Service" 3]
  ++ github_stack_resp.map (fun resp => mkPara resp "List Bullet")
  ++ [mkHeading "5.2.3 Email Service" 3]
  ++ email_resp.map (fun resp => mkPara resp "List Bullet")
  ++ [mkHeading "5.2.4 Logger Service" 3]
  ++ logger_resp.map (fun resp => mkPara resp "List Bullet")
  ++ [mkHeading "5.3 Database Design" 2,
   mkPara db_design "Normal",
   mkHeading "5.4 Communication Patterns" 2,
   mkPara comm_intro "Normal",
   Block.pageBreak,
   mkHeading "6. Implementation Details" 1,
   mkHeading "6.1 Project Structure" 2,
   mkPara structure_intro "Normal",
   mkHeading "6.2 Technology Stack Summary" 2,
   tech_table,
   mkHeading "6.3 Key Libraries and Dependencies" 2,
   mkPara deps_intro "Normal",
   mkHeading "6.4 Security Implementation" 2,
   mkPara security_impl "Normal",
   mkHeading "6.5 Testing Strategy" 2,
   mkPara testing_info "Normal",
   Block.pageBreak,
   mkHeading "7. Security Considerations" 1,
   mkHeading "7.1 Secure Configuration Management" 2,
   mkPara config_intro "Normal",
   mkHeading "7.2 Authentication and Authorization" 2,
   mkPara auth_info "Normal",
   mkHeading "7.3 Data Protection" 2,
   mkPara data_protect "Normal",
   mkHeading "7.4 External API Security" 2,
   mkPara external_api "Normal",
   Block.pageBreak,
   mkHeading "8. Results and Evaluation" 1,
   mkHeading "8.1 System Performance" 2,
   mkPara performance_intro "Normal",
   mkHeading "8.2 Scalability Evaluation" 2,
   mkPara scalability "Normal",
   mkHeading "8.3 Achievement of Objectives" 2,
   mkPara objectives_met "Normal",
   mkHeading "8.4 Limitations and Future Work" 2,
   mkPara limitations "Normal",
   Block.pageBreak,
   mkHeading "9. Conclusion" 1,
   mkPara conclusion_text "Normal",
   Block.pageBreak,
   mkHeading "10. References" 1,
   mkHeading "Official Documentation" 2]
  ++ official_refs.map (fun ref => mkPara ref "List Bullet")
  ++ [mkHeading "Books and Academic Sources" 2]
  ++ books.map (fun book => mkPara book "List Bullet")
  ++ [mkHeading "Tools and Libraries" 2]
  ++ tools.map (fun tool => mkPara tool "List Bullet")
  ++ [Block.pageBreak,
   mkHeading "11. Appendices" 1,
   mkHeading "A. Configuration Example (.env)" 2,
   mkPara config_example "No Spacing",
   mkHeading "B. Key API Endpoints" 2]
  ++ endpoints.map (fun endpoint => mkPara endpoint "List Bullet")
  ++ [mkHeading "C. Docker Deployment Commands" 2,
   mkPara docker_commands "No Spacing",
   mkHeading "D. Testing Commands" 2,
   mkPara test_commands "No Spacing"]


/-- The document as built by the script: margins set first (lines 44-50),
then every content block appended in call order. -/
def thesisDocument : Document :=
  appendAll (setMargins Document.new) thesisBlocks

/-- The literal destination path (line 1230). -/
def output_path : String :=
  "c:\\Users\\Administrator\\Desktop\\Final_Project_2026\\GitHub_Project\\GitHub_Stack_Bachelor_Thesis.docx"

/-- The console confirmation lines printed after a successful save
(lines 1233-1242); only the first interpolates anything, namely the
constant path. -/
def consoleLines : List String :=
  ["✓ Document created successfully: " ++ output_path,
   "✓ Document contains:",
   "  - Professional title page",
   "  - Table of contents",
   "  - 11 main sections with comprehensive content",
   "  - Multiple subsections with detailed explanations",
   "  - Tables and structured data",
   "  - Security and implementation details",
   "  - References and appendices",
   "  - Proper formatting and styling"]

/-- The ambient inputs a process could read: command-line arguments,
environment variables, standard input, network responses.  The script reads
none of them: it has no input(), no sys.argv or os.environ access, no
sockets, and the datetime import (line 9) is never used - the date at line
79 is a literal. -/
structure Env where
  argv : List String
  environ : List (String × String)
  stdinLines : List String
  networkResponses : List String

/-- Everything one run of the script produces: the built document, the save
path and the console output. -/
structure RunResult where
  document : Document
  savePath : String
  console : List String
  deriving DecidableEq, Repr

/-- The whole script as a function of the ambient inputs: it inspects none
of them, building the fixed document and targeting the literal constant
path. -/
def runScript (_e : Env) : RunResult :=
  { document := thesisDocument, savePath := output_path,
    console := consoleLines }

/-- Modelled from the spec: the DocumentModel contract
finalize(doc) -> ImmutableDocument together with its append-after-finalize
guard (spec sections 4.1 and 8).  No finalize operation exists in the
source script or anywhere under src/, so the builder state is taken from
the spec: a document plus a finalized flag. -/
structure BuildDoc where
  doc : Document
  finalized : Bool
  deriving DecidableEq, Repr

/-- Modelled from the spec: finalize marks the document complete. -/
def finalize (b : BuildDoc) : BuildDoc := { b with finalized := true }

/-- Modelled from the spec: appendBlock(doc, block) under the finalize
guard - it fails if the doc is already finalized and appends otherwise. -/
def appendBlockGuarded (b : BuildDoc) (blk : Block) : Except String BuildDoc :=
  if b.finalized then Except.error "append after finalize"
  else Except.ok { b with doc := appendBlock b.doc blk }

/-- Modelled from the spec: tokens of the serialized on-disk representation.
The real format is a zip-packaged XML written by doc.save (line 1231),
which is library code outside src/; here a file is a flat token stream
encoding every block in order. -/
inductive Tok where
  | tag (n : Nat)
  | num (n : Nat)
  | str (s : String)
  | strs (ss : List String)
  | grid (g : List (List String))
  deriving DecidableEq, Repr

/-- What a compliant reader reports per block: its type, its literal text
and its table contents. -/
inductive BlockView where
  | heading (text : String) (level : Nat)
  | paragraph (style : String) (runTexts : List String)
  | table (rows cols : Nat) (cells : List (List String))
  | pageBreak
  deriving DecidableEq, Repr

/-- The type-and-text view of a block. -/
def blockView : Block → BlockView
  | Block.heading t l _ => BlockView.heading t l
  | Block.paragraph p => BlockView.paragraph p.style (p.runs.map Run.text)
  | Block.table r c _ cells => BlockView.table r c cells
  | Block.pageBreak => BlockView.pageBreak

/-- Serialization of one block into the token stream. -/
def encodeBlock : Block → List Tok
  | Block.heading t l _ => [Tok.tag 0, Tok.num l, Tok.str t]
  | Block.paragraph p =>
      [Tok.tag 1, Tok.str p.style, Tok.strs (p.runs.map Run.text)]
  | Block.table r c _ cells => [Tok.tag 2, Tok.num r, Tok.num c, Tok.grid cells]
  | Block.pageBreak => [Tok.tag 3]

/-- Serialization of a block sequence: the concatenated block encodings. -/
def encodeBlocks (bs : List Block) : List Tok :=
  (bs.map encodeBlock).flatten

/-- Modelled from the spec: a compliant reader of the produced file, parsing
the token stream back into the ordered sequence of block views, with none
on a malformed stream. -/
def readBlocks : List Tok → Option (List BlockView)
  | [] => some []
  | Tok.tag 0 :: Tok.num l :: Tok.str t :: rest =>
      (readBlocks rest).map (fun vs => BlockView.heading t l :: vs)
  | Tok.tag 1 :: Tok.str st :: Tok.strs ts :: rest =>
      (readBlocks rest).map (fun vs => BlockView.paragraph st ts :: vs)
  | Tok.tag 2 :: Tok.num r :: Tok.num c :: Tok.grid g :: rest =>
      (readBlocks rest).map (fun vs => BlockView.table r c g :: vs)
  | Tok.tag 3 :: rest =>
      (readBlocks rest).map (fun vs => BlockView.pageBreak :: vs)
  | _ => none

/-- Modelled from the spec: PersistenceError (the IOError of the serializer
contract), the single error class of the system, raised when the
destination path cannot be written. -/
inductive PersistenceError where
  | ioError (path : String)
  deriving DecidableEq, Repr

/-- Modelled from the spec: the filesystem as the serializer sees it - the
set of writable destination paths (a path is unwritable when its parent
directory is missing, permission is denied or the disk is full) and the
stored files. -/
structure FileSystem where
  writable : List String
  files : List (String × List Tok)
  deriving DecidableEq, Repr

/-- Writing (creating or overwriting) one file in the store. -/
def setFile (files : List (String × List Tok)) (p : String)
    (content : List Tok) : List (String × List Tok) :=
  (p, content) :: files.filter (fun q => !(q.1 == p))

/-- Reading one file back from the store. -/
def readFile (fs : FileSystem) (p : String) : Option (List Tok) :=
  (fs.files.find? (fun q => q.1 == p)).map (fun q => q.2)

/-- Modelled from the spec: serialize(document, destinationPath) ->
Result<(), IOError>, the behaviour of doc.save at line 1231.  When the path
is writable all bytes are written in one step; otherwise a
PersistenceError is raised and the filesystem is left untouched, so no
partial or complete output file appears. -/
def serialize (d : Document) (path : String) (fs : FileSystem) :
    FileSystem × Except PersistenceError Unit :=
  if path ∈ fs.writable then
    ({ fs with files := setFile fs.files path (encodeBlocks d.blocks) },
     Except.ok ())
  else (fs, Except.error (PersistenceError.ioError path))

/-- The terminal step of a run: save the built document to the constant
path.  The source has no try/except, so a save error is surfaced to the
caller unmodified and the run terminates. -/
def scriptMain (e : Env) (fs : FileSystem) :
    FileSystem × Except PersistenceError Unit :=
  serialize (runScript e).document (runScript e).savePath fs

/-- The levels of every heading appended by the script, in document
order. -/
def headingLevels : List Nat :=
  thesisBlocks.filterMap (fun b => match b with
    | Block.heading _ l _ => some l
    | _ => none)


set_option maxRecDepth 8000

/-- Blocks accumulated by a fold of `appendBlock` calls. -/
theorem appendAll_blocks (d : Document) (bs : List Block) :
    (appendAll d bs).blocks = d.blocks ++ bs := by
  induction bs generalizing d with
  | nil => simp [appendAll]
  | cons b bs ih =>
      show (appendAll (appendBlock d b) bs).blocks = _
      rw [ih]
      simp [appendBlock]

/-- Sections are untouched by a fold of `appendBlock` calls. -/
theorem appendAll_sections (d : Document) (bs : List Block) :
    (appendAll d bs).sections = d.sections := by
  induction bs generalizing d with
  | nil => rfl
  | cons b bs ih => exact ih (appendBlock d b)

/-- C1: the block sequence of a document equals the append-call order: a
fold of `appendBlock` over any call list extends the block list by exactly
that list, the i-th appended block occupies the i-th position after the
old blocks, and the script's finished document holds exactly the blocks it
appended, in order. -/
theorem appendBlock_order (d : Document) (bs : List Block) (i : Nat) :
    (appendAll d bs).blocks = d.blocks ++ bs ∧
    (appendAll d bs).blocks[d.blocks.length + i]? = bs[i]? ∧
    thesisDocument.blocks = thesisBlocks := by
  refine ⟨appendAll_blocks d bs, ?_, ?_⟩
  · rw [appendAll_blocks, List.getElem?_append_right (by omega)]
    congr 1
    omega
  · rw [show thesisDocument = appendAll (setMargins Document.new) thesisBlocks
        from rfl, appendAll_blocks]
    rfl

/-- C8: margins are global and set once before any content block: the
document is still empty right after `setMargins`, the finished document's
single section carries 1in top/bottom and 1.25in left/right margins, and
no append operation ever modifies the sections. -/
theorem margins_global (d : Document) (b : Block) (bs : List Block) :
    (setMargins Document.new).blocks = [] ∧
    thesisDocument.sections =
      [{ top_margin := Inches 1, bottom_margin := Inches 1,
         left_margin := inches_1_25, right_margin := inches_1_25 }] ∧
    (appendBlock d b).sections = d.sections ∧
    (appendAll d bs).sections = d.sections := by
  refine ⟨rfl, ?_, rfl, appendAll_sections d bs⟩
  exact (appendAll_sections (setMargins Document.new) thesisBlocks).trans rfl

/-- C9: the script reads no input, so it is deterministic: any two runs
are identical, the destination is the literal constant path, the built
document is fixed, and the date line is the fixed literal. -/
theorem script_no_input_deterministic (e e' : Env) :
    runScript e = runScript e' ∧
    (runScript e).savePath =
      "c:\\Users\\Administrator\\Desktop\\Final_Project_2026\\GitHub_Project\\GitHub_Stack_Bachelor_Thesis.docx" ∧
    (runScript e).document = thesisDocument ∧
    "Date: January 26, 2026" ∈ info_lines :=
  ⟨rfl, rfl, rfl, by decide⟩

/-- C3: after `finalize`, any further append attempt is rejected with an
error and the document content as it stood before finalize is unchanged. -/
theorem finalize_rejects_append (b : BuildDoc) (blk : Block) :
    appendBlockGuarded (finalize b) blk =
      Except.error "append after finalize" ∧
    (finalize b).doc = b.doc :=
  ⟨rfl, rfl⟩

/-- C2: `serialize` succeeds exactly when the destination is writable; on an
unwritable destination it raises the single PersistenceError naming the
path and leaves the filesystem untouched (no output file appears); the
script's terminal step surfaces exactly the serializer's error, and every
error `serialize` can produce is the PersistenceError for the path. -/
theorem serialize_error_policy (d : Document) (path : String)
    (fs : FileSystem) (e : Env) (err : PersistenceError) :
    ((serialize d path fs).2 = Except.ok () ↔ path ∈ fs.writable) ∧
    (path ∉ fs.writable →
      serialize d path fs =
        (fs, Except.error (PersistenceError.ioError path))) ∧
    (scriptMain e fs).2 = (serialize thesisDocument output_path fs).2 ∧
    ((serialize d path fs).2 = Except.error err →
      err = PersistenceError.ioError path) := by
  refine ⟨?_, ?_, rfl, ?_⟩
  · by_cases h : path ∈ fs.writable <;> simp [serialize, h]
  · intro h
    simp [serialize, h]
  · intro h
    by_cases hw : path ∈ fs.writable <;> simp [serialize, hw] at h
    exact h.symm

/-- Witness for C2: on the empty filesystem (nothing writable), saving the
thesis to the constant path raises the PersistenceError for that path and
leaves the filesystem exactly as it was. -/
theorem serialize_error_policy_witness :
    serialize thesisDocument output_path { writable := [], files := [] } =
      ({ writable := [], files := [] },
       Except.error (PersistenceError.ioError output_path)) :=
  (serialize_error_policy thesisDocument output_path
    { writable := [], files := [] } ⟨[], [], [], []⟩
    (PersistenceError.ioError output_path)).2.1 (by simp)

/-- Reading one encoded block off the front of the token stream. -/
theorem readBlocks_encodeBlock (b : Block) (ts : List Tok) :
    readBlocks (encodeBlock b ++ ts) =
      (readBlocks ts).map (fun vs => blockView b :: vs) := by
  cases b <;> rfl

/-- Decoding inverts encoding on every block sequence. -/
theorem readBlocks_encodeBlocks (bs : List Block) :
    readBlocks (encodeBlocks bs) = some (bs.map blockView) := by
  have key : ∀ (l : List Block) (ts : List Tok),
      readBlocks ((l.map encodeBlock).flatten ++ ts) =
        (readBlocks ts).map (fun vs => l.map blockView ++ vs) := by
    intro l
    induction l with
    | nil =>
        intro ts
        cases h : readBlocks ts <;> simp [h]
    | cons b l ih =>
        intro ts
        rw [List.map_cons, List.flatten_cons, List.append_assoc,
          readBlocks_encodeBlock, ih]
        cases h : readBlocks ts <;> simp [h]
  have h0 : readBlocks ([] : List Tok) = some [] := rfl
  have h := key bs []
  rw [h0] at h
  simpa [encodeBlocks] using h

/-- C5: round-trip - serializing a document to a writable path stores the
encoded block stream, and the compliant reader recovers from it exactly
the ordered sequence of block types and literal text that was appended. -/
theorem serialize_roundTrip (d : Document) (path : String) (fs : FileSystem)
    (h : path ∈ fs.writable) :
    ∃ fs', serialize d path fs = (fs', Except.ok ()) ∧
      readFile fs' path = some (encodeBlocks d.blocks) ∧
      readBlocks (encodeBlocks d.blocks) = some (d.blocks.map blockView) := by
  refine ⟨{ fs with files := setFile fs.files path (encodeBlocks d.blocks) },
    ?_, ?_, readBlocks_encodeBlocks d.blocks⟩
  · simp [serialize, h]
  · simp [readFile, setFile]

/-- Witness for C5: the round-trip on the thesis document itself, on a
filesystem where the constant path is writable. -/
theorem serialize_roundTrip_witness :
    ∃ fs', serialize thesisDocument output_path
        { writable := [output_path], files := [] } = (fs', Except.ok ()) ∧
      readFile fs' output_path = some (encodeBlocks thesisDocument.blocks) ∧
      readBlocks (encodeBlocks thesisDocument.blocks) =
        some (thesisDocument.blocks.map blockView) :=
  serialize_roundTrip thesisDocument output_path
    { writable := [output_path], files := [] } (List.mem_singleton.mpr rfl)

/-- C6: the styling helpers are pure deterministic total mappings:
`set_paragraph_spacing` returns the same paragraph with only the format
fields set, equal inputs give equal outputs, and the two paragraph-adding
helpers append exactly one styled block to the document. -/
theorem style_ops_pure (p q : Paragraph) (b a : Nat) (d : Document)
    (t s : String) (lv : Nat) (bo it : Bool) :
    ((set_paragraph_spacing p b a).style = p.style ∧
     (set_paragraph_spacing p b a).runs = p.runs ∧
     (set_paragraph_spacing p b a).fmt =
       { space_before := some (Pt b), space_after := some (Pt a),
         line_spacing := some ((3 : ℚ) / 2),
         alignment := p.fmt.alignment }) ∧
    (p = q → set_paragraph_spacing p b a = set_paragraph_spacing q b a) ∧
    (add_heading_with_styling d t lv).blocks =
      d.blocks ++ [Block.heading t lv (heading_fmt lv)] ∧
    (add_styled_paragraph d t s bo it).blocks =
      d.blocks ++ [Block.paragraph (set_paragraph_spacing
        (if bo || it then
            { mkParagraph t s with
                runs := (mkParagraph t s).runs.map (applyRunFlags bo it) }
          else mkParagraph t s) 0 12)] := by
  refine ⟨⟨rfl, rfl, rfl⟩, fun h => by rw [h], rfl, ?_⟩
  simp only [add_styled_paragraph, appendBlock]

/-- Witness for C6: determinism applied at a concrete paragraph. -/
theorem style_ops_pure_witness :
    set_paragraph_spacing (mkParagraph "x" "Normal") 0 12 =
      set_paragraph_spacing (mkParagraph "x" "Normal") 0 12 :=
  (style_ops_pure (mkParagraph "x" "Normal") (mkParagraph "x" "Normal") 0 12
    Document.new "t" "Normal" 1 true false).2.1 rfl

/-- C4: the table policy is deterministic empty-string fill -
`add_table(rows, cols)` creates every declared cell holding the empty
string - and the script's 5x4 comparison table ends with every declared
cell populated with its intended text, so no sparse table is produced. -/
theorem table_policy_empty_fill (r c : Nat) :
    (mkTableCells r c).length = r ∧
    (∀ row ∈ mkTableCells r c, row.length = c ∧ ∀ s ∈ row, s = "") ∧
    comparison_table_cells =
      [["Aspect", "Monolithic", "SOA", "Microservices"],
       ["Deployment", "Single unit", "Multiple services",
        "Independent services"],
       ["Scalability", "Component level", "Service level", "Fine-grained"],
       ["Technology", "Unified", "Mixed", "Flexible per service"],
       ["Data Management", "Shared DB", "Often shared",
        "Independent per service"]] ∧
    comparison_table_cells.all
      (fun row => row.all (fun s => !(s == ""))) = true := by
  refine ⟨by simp [mkTableCells], ?_, by decide, by decide⟩
  intro row hrow
  have hr : row = List.replicate c "" := List.eq_of_mem_replicate hrow
  subst hr
  exact ⟨List.length_replicate c "", fun s hs => List.eq_of_mem_replicate hs⟩

/-- Witness for C4: the empty-fill policy evaluated at the script's 5x4
shape. -/
theorem table_policy_empty_fill_witness :
    (mkTableCells 5 4).length = 5 ∧
    (List.replicate 4 ("" : String)).length = 4 ∧
    (∀ s ∈ List.replicate 4 ("" : String), s = "") :=
  ⟨(table_policy_empty_fill 5 4).1,
   ((table_policy_empty_fill 5 4).2.1 (List.replicate 4 "") (by decide)).1,
   ((table_policy_empty_fill 5 4).2.1 (List.replicate 4 "") (by decide)).2⟩

/-- C7: every heading the script appends has a level between 1 and 9. -/
theorem heading_levels_bounded : ∀ l ∈ headingLevels, 1 ≤ l ∧ l ≤ 9 := by
  decide

/-- Witness for C7: the first heading's level 1 is in range. -/
theorem heading_levels_bounded_witness : 1 ≤ 1 ∧ 1 ≤ 9 :=
  heading_levels_bounded 1 (by decide)

/-- C10: the principles loop numbers each subsection by the count of titles
code-point-lexicographically at most the current title, so the emitted
headings are, in insertion order, 2.2.4, 2.2.1, 2.2.2, 2.2.3 - a
permutation, not ascending in document order. -/
theorem principles_numbering_permutation :
    principlesSegment.filterMap (fun blk => match blk with
      | Block.heading t _ _ => some t
      | _ => none) =
    ["2.2.4 Service Independence", "2.2.1 Decentralized Data Management",
     "2.2.2 Fault Isolation", "2.2.3 Scalability and Resilience"] := by
  decide

end ThesisDocx
